import Mathlib

/-!
Verification of the client-side live report store with geospatial filtering
and optimistic voting, shallowly embedded from `app/(tabs)/crimemap.tsx`.

Embedding conventions:
* JS numbers that the program only adds, compares and clamps (ids, vote
  counters, millisecond timestamps, vote directions) are `Int`; coordinates
  and severities are `Rat` (exact values of the doubles handled); the
  haversine distance is a real-valued function (`Real`), since it uses trig.
* A raw row field that may be absent / not a number is an `Option`;
  `typeof x === "number"` checks become matches on that option.
* `created_at` is carried as the millisecond instant that
  `new Date(s).getTime()` yields, since the string round-trip through the
  external `Date` parser is identity on the instant.
* React state (`reports`, `myVotes`, `optimisticVotes`, `voteBusy`,
  `userId`) becomes an explicit `VoteState` record; the JS objects keyed by
  report id become functions `Int → Option Int` / `Int → Bool` (absent key =
  `none` / `false`).
* Vote directions use the source encoding: `1` = up, `-1` = down, `0` = none.
* `handleVote` is split at its `await`: `castVoteStart` is the synchronous
  prefix up to and including the optimistic step, `castVoteFinish` is the
  continuation (success sets `myVotes`, failure applies the rollback
  deltas, `finally` clears the overlay and the busy flag), and `castVote`
  is one run-to-completion call with a boolean persistence outcome.
-/

/-- Raw row shape delivered by the bulk query / realtime channel
(`ReportRow` wire shape in the source, before validation). -/
structure RawRow where
  id : Int
  crime_type : Option String
  lat : Option Rat
  lon : Option Rat
  severity : Option Rat
  created_at : Int
  area_name : Option String
  upvote_no : Option Int
  downvote_no : Option Int
  deriving DecidableEq

/-- Sanitized in-store report record (`ReportRow` as held in `reports`). -/
structure ReportRow where
  id : Int
  crime_type : String
  lat : Rat
  lon : Rat
  severity : Option Rat
  created_at : Int
  area_name : Option String
  upvote_no : Int
  downvote_no : Int
  deriving DecidableEq

/-- Validation and sanitization shared by the bulk fetch and the realtime
INSERT handler: keep the row only when both coordinates are numbers;
coerce the category to a lower-cased string defaulting to "other"; default
missing vote counters to 0. -/
def sanitize (r : RawRow) : Option ReportRow :=
  match r.lat, r.lon with
  | some la, some lo =>
      some { id := r.id
             crime_type := (r.crime_type.getD "other").toLower
             lat := la
             lon := lo
             severity := r.severity
             created_at := r.created_at
             area_name := r.area_name
             upvote_no := r.upvote_no.getD 0
             downvote_no := r.downvote_no.getD 0 }
  | _, _ => none

/-- `fetchReports` success path: replace the collection with the validated,
sanitized batch (the `.filter(...).map(...)` pipeline). -/
def loadSnapshot (rows : List RawRow) : List ReportRow :=
  rows.filterMap sanitize

/-- Realtime INSERT handler body: validate and sanitize the incoming row
with the same rules as the snapshot; if valid, prepend it to the
collection; otherwise leave the collection unchanged. -/
def ingestInsert (n : RawRow) (prev : List ReportRow) : List ReportRow :=
  match sanitize n with
  | some row => row :: prev
  | none => prev

/-- Folding a stream of realtime INSERT events into the store. -/
def applyInserts (ins : List RawRow) (l : List ReportRow) : List ReportRow :=
  ins.foldl (fun acc n => ingestInsert n acc) l

/-- `setReportCounts`: apply a signed delta to the vote counters of the
report with the given id, clamping each counter at zero
(`Math.max(0, ...)`); every other report is returned unchanged. -/
def setReportCounts (reportId deltaUp deltaDown : Int)
    (prev : List ReportRow) : List ReportRow :=
  prev.map fun r =>
    if r.id = reportId then
      { r with upvote_no := max 0 (r.upvote_no + deltaUp)
               downvote_no := max 0 (r.downvote_no + deltaDown) }
    else r

/-- A sequence of `setReportCounts` calls, each op being
`(reportId, deltaUp, deltaDown)`. -/
def applyCounterUpdates (ops : List (Int × Int × Int))
    (l : List ReportRow) : List ReportRow :=
  ops.foldl (fun acc op => setReportCounts op.1 op.2.1 op.2.2 acc) l

/-- JS `Math.atan2(y, x)`. -/
noncomputable def atan2 (y x : Real) : Real :=
  if 0 < x then Real.arctan (y / x)
  else if x < 0 then
    (if y < 0 then Real.arctan (y / x) - Real.pi else Real.arctan (y / x) + Real.pi)
  else
    (if 0 < y then Real.pi / 2 else if y < 0 then -(Real.pi / 2) else 0)

/-- `getDistanceKm`: haversine great-circle distance in km between two
coordinates, Earth radius 6371 km. -/
noncomputable def getDistanceKm (lat1 lon1 lat2 lon2 : Rat) : Real :=
  let R : Real := 6371
  let dLat : Real := ((lat2 : Real) - (lat1 : Real)) * Real.pi / 180
  let dLon : Real := ((lon2 : Real) - (lon1 : Real)) * Real.pi / 180
  let a : Real :=
    Real.sin (dLat / 2) ^ 2 +
      Real.cos ((lat1 : Real) * Real.pi / 180) *
        Real.cos ((lat2 : Real) * Real.pi / 180) *
        Real.sin (dLon / 2) ^ 2
  let c : Real := 2 * atan2 (Real.sqrt a) (Real.sqrt (1 - a))
  R * c

/-- Classical boolean reflection of `x ≤ y` on the reals, standing in for
the floating-point comparison `distance <= 5` of the source. -/
noncomputable def rleb (x y : Real) : Bool :=
  @decide (x ≤ y) (Classical.propDecidable _)

/-- The recency window: `5 * 24 * 60 * 60 * 1000` ms. -/
def fiveDaysMs : Int := 5 * 24 * 60 * 60 * 1000

/-- `recentNearbyCrimes`: empty when no user location is known; otherwise
the reports whose age is at most five days and whose haversine distance
from the user location is at most 5 km (`timeDiff <= fiveDaysMs &&
distance <= 5`). -/
noncomputable def recentNearbyCrimes (userLocation : Option (Rat × Rat))
    (now : Int) (reports : List ReportRow) : List ReportRow :=
  match userLocation with
  | none => []
  | some u =>
      reports.filter fun r =>
        decide (now - r.created_at ≤ fiveDaysMs) &&
          rleb (getDistanceKm u.1 u.2 r.lat r.lon) 5

/-- `totalReports`: size of the unfiltered collection. -/
def totalReports (reports : List ReportRow) : Nat := reports.length

/-- `weekCount`: reports strictly younger than 7 days
(`Date.now() - created < 7 * 86400 * 1000`). -/
def weekCount (now : Int) (reports : List ReportRow) : Nat :=
  (reports.filter fun r => decide (now - r.created_at < 7 * 86400 * 1000)).length

/-- `highCritical`: reports with `(severity ?? 0) >= 3.5`. -/
def highCritical (reports : List ReportRow) : Nat :=
  (reports.filter fun r => decide ((3.5 : Rat) ≤ r.severity.getD 0)).length

/-- The screen state the derived views read: the report collection, the
active type filter and the user location. -/
structure ScreenState where
  selectedFilter : String
  reports : List ReportRow
  userLocation : Option (Rat × Rat)

/-- The type-filtered pin list: all reports when the filter is "all",
otherwise the reports whose category equals the filter. -/
def filtered (s : ScreenState) : List ReportRow :=
  if s.selectedFilter = "all" then s.reports
  else s.reports.filter fun r => decide (r.crime_type = s.selectedFilter)

/-- The aggregate statistics `(totalReports, weekCount, highCritical)` as
the screen computes them, over the unfiltered collection. -/
def aggregateStats (s : ScreenState) (now : Int) : Nat × Nat × Nat :=
  (totalReports s.reports, weekCount now s.reports, highCritical s.reports)

/-- The nearby-recent view as the screen computes it. -/
noncomputable def nearbyView (s : ScreenState) (now : Int) : List ReportRow :=
  recentNearbyCrimes s.userLocation now s.reports

/-- The voting-related screen state: the report collection plus the
per-report vote caches and guards of `CrimeMapScreen`. -/
structure VoteState where
  reports : List ReportRow
  myVotes : Int → Option Int
  optimisticVotes : Int → Option Int
  voteBusy : Int → Bool
  userId : Option String

/-- The effective vote for a report:
`optimisticVotes[reportId] ?? myVotes[reportId] ?? 0`. -/
def effVote (s : VoteState) (reportId : Int) : Int :=
  (s.optimisticVotes reportId).getD ((s.myVotes reportId).getD 0)

/-- The six optimistic counter tweaks of `handleVote`, applied in source
order (at most one condition holds for any `(current, newVote)` pair). -/
def applyForwardTweaks (current newVote reportId : Int)
    (reports : List ReportRow) : List ReportRow :=
  let r1 := if current = 0 ∧ newVote = 1 then setReportCounts reportId 1 0 reports else reports
  let r2 := if current = 0 ∧ newVote = -1 then setReportCounts reportId 0 1 r1 else r1
  let r3 := if current = 1 ∧ newVote = 0 then setReportCounts reportId (-1) 0 r2 else r2
  let r4 := if current = -1 ∧ newVote = 0 then setReportCounts reportId 0 (-1) r3 else r3
  let r5 := if current = 1 ∧ newVote = -1 then setReportCounts reportId (-1) 1 r4 else r4
  let r6 := if current = -1 ∧ newVote = 1 then setReportCounts reportId 1 (-1) r5 else r5
  r6

/-- The six rollback counter tweaks of `handleVote`'s catch block: the
negated deltas of the same six transitions, in source order. -/
def applyRollbackTweaks (current newVote reportId : Int)
    (reports : List ReportRow) : List ReportRow :=
  let r1 := if current = 0 ∧ newVote = 1 then setReportCounts reportId (-1) 0 reports else reports
  let r2 := if current = 0 ∧ newVote = -1 then setReportCounts reportId 0 (-1) r1 else r1
  let r3 := if current = 1 ∧ newVote = 0 then setReportCounts reportId 1 0 r2 else r2
  let r4 := if current = -1 ∧ newVote = 0 then setReportCounts reportId 0 1 r3 else r3
  let r5 := if current = 1 ∧ newVote = -1 then setReportCounts reportId 1 (-1) r4 else r4
  let r6 := if current = -1 ∧ newVote = 1 then setReportCounts reportId (-1) 1 r5 else r5
  r6

/-- Synchronous prefix of `handleVote(reportId, next)` up to its first
`await`: the busy/identity guard, the `current`/`newVote` computation, the
busy flag, the optimistic overlay and the optimistic counter tweaks.
Returns the new state together with the locals `(current, newVote)` the
continuation captures, or `none` when the call was rejected by the guard. -/
def castVoteStart (s : VoteState) (reportId next : Int) :
    VoteState × Option (Int × Int) :=
  if s.userId = none ∨ s.voteBusy reportId then (s, none)
  else
    let current := effVote s reportId
    let newVote : Int := if current = next then 0 else next
    ({ s with
        voteBusy := fun k => if k = reportId then true else s.voteBusy k
        optimisticVotes := fun k => if k = reportId then some newVote else s.optimisticVotes k
        reports := applyForwardTweaks current newVote reportId s.reports },
     some (current, newVote))

/-- Continuation of `handleVote` after the persistence call settles:
on success set `myVotes[reportId] := newVote` (both the delete and the
upsert branch do this); on failure apply the rollback tweaks; in either
case (`finally`) delete the optimistic overlay entry and clear the busy
flag. -/
def castVoteFinish (s : VoteState) (reportId current newVote : Int)
    (success : Bool) : VoteState :=
  let s2 :=
    if success then
      { s with myVotes := fun k => if k = reportId then some newVote else s.myVotes k }
    else
      { s with reports := applyRollbackTweaks current newVote reportId s.reports }
  { s2 with
      optimisticVotes := fun k => if k = reportId then none else s2.optimisticVotes k
      voteBusy := fun k => if k = reportId then false else s2.voteBusy k }

/-- One run-to-completion `handleVote(reportId, next)` call whose
persistence attempt succeeds iff `success`. -/
def castVote (s : VoteState) (reportId next : Int) (success : Bool) : VoteState :=
  match castVoteStart s reportId next with
  | (s1, none) => s1
  | (s1, some (current, newVote)) => castVoteFinish s1 reportId current newVote success

/-- The `(Δup, Δdown)` delta of each `(current, newVote)` transition, read
off the six optimistic branches of `handleVote`. -/
def forwardDelta (current newVote : Int) : Int × Int :=
  if current = 0 ∧ newVote = 1 then (1, 0)
  else if current = 0 ∧ newVote = -1 then (0, 1)
  else if current = 1 ∧ newVote = 0 then (-1, 0)
  else if current = -1 ∧ newVote = 0 then (0, -1)
  else if current = 1 ∧ newVote = -1 then (-1, 1)
  else if current = -1 ∧ newVote = 1 then (1, -1)
  else (0, 0)

/-- The six `(current, next)` rows of the vote delta table
(1 = up, -1 = down, 0 = none). -/
def deltaTablePairs : List (Int × Int) :=
  [(0, 1), (0, -1), (1, 0), (-1, 0), (1, -1), (-1, 1)]

/-- The `setMyVotes` updater of the lazy vote-hydration effect: fold the
fetched `(report_id, value)` rows into the committed-vote cache, writing an
id only when no optimistic overlay entry exists for it
(`if (optimisticVotes[rid] == null) next[rid] = ...`). -/
def hydrateMyVotes (optimisticVotes : Int → Option Int)
    (rows : List (Int × Int)) (prev : Int → Option Int) : Int → Option Int :=
  rows.foldl
    (fun next row =>
      if optimisticVotes row.1 = none then
        fun k => if k = row.1 then some (if row.2 = 1 then 1 else -1) else next k
      else next)
    prev

/-- Sample sanitized report used by concrete witnesses. -/
def sampleReport : ReportRow :=
  { id := 1, crime_type := "theft", lat := 0, lon := 0, severity := some 4,
    created_at := 0, area_name := none, upvote_no := 2, downvote_no := 3 }

/-- Raw row with a missing latitude, used by concrete witnesses. -/
def badRaw : RawRow :=
  { id := 9, crime_type := some "theft", lat := none, lon := some 1,
    severity := none, created_at := 0, area_name := none,
    upvote_no := none, downvote_no := none }

/-- Valid raw row with id 1, used by concrete witnesses and
counterexamples. -/
def dupRaw : RawRow :=
  { id := 1, crime_type := some "Theft", lat := some 0, lon := some 0,
    severity := none, created_at := 0, area_name := none,
    upvote_no := none, downvote_no := none }

/-- Valid raw row with id 2, used by concrete witnesses. -/
def freshRaw : RawRow :=
  { id := 2, crime_type := some "robbery", lat := some 1, lon := some 1,
    severity := some 2, created_at := 5, area_name := some "x",
    upvote_no := some 0, downvote_no := some 0 }

theorem setReportCounts_nonneg (reportId du dd : Int) (l : List ReportRow)
    (h : ∀ r ∈ l, 0 ≤ r.upvote_no ∧ 0 ≤ r.downvote_no) :
    ∀ r ∈ setReportCounts reportId du dd l, 0 ≤ r.upvote_no ∧ 0 ≤ r.downvote_no := by
  intro r hr
  unfold setReportCounts at hr
  rw [List.mem_map] at hr
  obtain ⟨x, hx, hfx⟩ := hr
  subst hfx
  by_cases hid : x.id = reportId
  · simp only [hid, if_true]
    exact ⟨le_max_left 0 _, le_max_left 0 _⟩
  · simpa [hid] using h x hx

theorem setReportCounts_cancel (reportId du dd du2 dd2 : Int) (l : List ReportRow)
    (h : ∀ r ∈ l, r.id = reportId →
      max 0 (max 0 (r.upvote_no + du) + du2) = r.upvote_no ∧
      max 0 (max 0 (r.downvote_no + dd) + dd2) = r.downvote_no) :
    setReportCounts reportId du2 dd2 (setReportCounts reportId du dd l) = l := by
  unfold setReportCounts
  rw [List.map_map]
  refine (List.map_congr_left ?_).trans (List.map_id l)
  intro r hr
  by_cases hid : r.id = reportId
  · obtain ⟨h1, h2⟩ := h r hr hid
    simp [Function.comp, hid, h1, h2]
    rw [← hid]
  · simp [Function.comp, hid]

theorem setReportCounts_id_absent (reportId du dd : Int) (l : List ReportRow)
    (h : ∀ r ∈ l, r.id ≠ reportId) :
    setReportCounts reportId du dd l = l := by
  unfold setReportCounts
  refine (List.map_congr_left ?_).trans (List.map_id l)
  intro r hr
  simp [h r hr]

/-- C8: `ingestInsert` on a row missing `lat` or `lon` leaves the report
collection unchanged — the invalid row is silently dropped, never stored
as a partial record. -/
theorem ingest_drop_invariant (n : RawRow) (l : List ReportRow)
    (h : n.lat = none ∨ n.lon = none) : ingestInsert n l = l := by
  cases hla : n.lat <;> cases hlo : n.lon <;> simp_all [ingestInsert, sanitize]

theorem ingest_drop_invariant_witness :
    (badRaw.lat = none ∨ badRaw.lon = none) ∧ ingestInsert badRaw [sampleReport] = [sampleReport] :=
  ⟨Or.inl rfl, ingest_drop_invariant badRaw [sampleReport] (Or.inl rfl)⟩

/-- C4: for every report in the collection and every sequence of
`updateCounters` (`setReportCounts`) calls with arbitrary signed deltas,
neither counter ever becomes negative (given the collection started with
non-negative counters). -/
theorem clamp_invariant (ops : List (Int × Int × Int)) (l : List ReportRow)
    (h : ∀ r ∈ l, 0 ≤ r.upvote_no ∧ 0 ≤ r.downvote_no) :
    ∀ r ∈ applyCounterUpdates ops l, 0 ≤ r.upvote_no ∧ 0 ≤ r.downvote_no := by
  induction ops generalizing l with
  | nil => exact h
  | cons op rest ih => exact ih _ (setReportCounts_nonneg op.1 op.2.1 op.2.2 l h)

theorem clamp_invariant_witness :
    (∀ r ∈ [sampleReport], 0 ≤ r.upvote_no ∧ 0 ≤ r.downvote_no) ∧
    ∀ r ∈ applyCounterUpdates [(1, -5, -5), (1, -7, 2)] [sampleReport],
      0 ≤ r.upvote_no ∧ 0 ≤ r.downvote_no :=
  ⟨by decide, clamp_invariant [(1, -5, -5), (1, -7, 2)] [sampleReport] (by decide)⟩

/-- C9: `setReportCounts reportId du dd` keeps the collection's length and
order; a report at a position whose id differs from `reportId` is entirely
unchanged; at a position whose id equals `reportId` every field other than
the two vote counters (id, crime_type, lat, lon, severity, created_at,
area_name) is unchanged; and when no report carries `reportId` the whole
collection is unchanged. -/
theorem setReportCounts_frame (reportId du dd : Int) (l : List ReportRow) :
    (setReportCounts reportId du dd l).length = l.length ∧
    (∀ i (h1 : i < l.length) (h2 : i < (setReportCounts reportId du dd l).length),
      ((l.get ⟨i, h1⟩).id ≠ reportId →
        (setReportCounts reportId du dd l).get ⟨i, h2⟩ = l.get ⟨i, h1⟩) ∧
      ((l.get ⟨i, h1⟩).id = reportId →
        ((setReportCounts reportId du dd l).get ⟨i, h2⟩).id = (l.get ⟨i, h1⟩).id ∧
        ((setReportCounts reportId du dd l).get ⟨i, h2⟩).crime_type = (l.get ⟨i, h1⟩).crime_type ∧
        ((setReportCounts reportId du dd l).get ⟨i, h2⟩).lat = (l.get ⟨i, h1⟩).lat ∧
        ((setReportCounts reportId du dd l).get ⟨i, h2⟩).lon = (l.get ⟨i, h1⟩).lon ∧
        ((setReportCounts reportId du dd l).get ⟨i, h2⟩).severity = (l.get ⟨i, h1⟩).severity ∧
        ((setReportCounts reportId du dd l).get ⟨i, h2⟩).created_at = (l.get ⟨i, h1⟩).created_at ∧
        ((setReportCounts reportId du dd l).get ⟨i, h2⟩).area_name = (l.get ⟨i, h1⟩).area_name)) ∧
    ((∀ r ∈ l, r.id ≠ reportId) → setReportCounts reportId du dd l = l) := by
  refine ⟨List.length_map l _, ?_, setReportCounts_id_absent reportId du dd l⟩
  intro i h1 h2
  have hget : (setReportCounts reportId du dd l).get ⟨i, h2⟩ =
      (fun r => if r.id = reportId then
        { r with upvote_no := max 0 (r.upvote_no + du)
                 downvote_no := max 0 (r.downvote_no + dd) }
        else r) (l.get ⟨i, h1⟩) := by
    simp [setReportCounts, List.get_eq_getElem]
  constructor
  · intro hne
    rw [hget]
    simp only [List.get_eq_getElem] at hne ⊢
    simp [hne]
  · intro heq
    rw [hget]
    simp only [List.get_eq_getElem] at heq ⊢
    simp [heq]

theorem setReportCounts_frame_witness :
    (setReportCounts 1 1 1 [sampleReport]).length = [sampleReport].length :=
  (setReportCounts_frame 1 1 1 [sampleReport]).1

theorem applyInserts_eq (ins : List RawRow) (l : List ReportRow) :
    applyInserts ins l = (ins.filterMap sanitize).reverse ++ l := by
  induction ins generalizing l with
  | nil => rfl
  | cons n rest ih =>
      show applyInserts rest (ingestInsert n l) = _
      rw [ih]
      unfold ingestInsert
      cases hs : sanitize n <;> simp [List.filterMap_cons, hs]

/-- C1 counterexample: a snapshot containing id 1 followed by a realtime
insert of a valid row with the same id 1 yields a collection in which id 1
occurs twice — the INSERT handler prepends without any dedup check. -/
theorem dedup_counterexample :
    ¬ ((applyInserts [dupRaw] (loadSnapshot [dupRaw])).map (fun r => r.id)).Nodup := by
  decide

/-- C1 (amended): the collection contains each id at most once provided
the ids involved are fresh — i.e. the sanitized snapshot rows and the
sanitized inserted rows together carry pairwise-distinct ids.  (As stated
the claim is false: the INSERT handler performs no dedup, so re-inserting
an id already present from the snapshot duplicates it.) -/
theorem dedup_amended (snap ins : List RawRow)
    (h : (((ins.filterMap sanitize).map (fun r => r.id)) ++
      ((loadSnapshot snap).map (fun r => r.id))).Nodup) :
    ((applyInserts ins (loadSnapshot snap)).map (fun r => r.id)).Nodup := by
  rw [applyInserts_eq, List.map_append, List.map_reverse]
  rw [List.nodup_append] at h ⊢
  obtain ⟨h1, h2, h3⟩ := h
  refine ⟨List.nodup_reverse.mpr h1, h2, ?_⟩
  intro a ha
  exact h3 (List.mem_reverse.mp ha)

theorem dedup_amended_witness :
    ((([freshRaw].filterMap sanitize).map (fun r => r.id)) ++
      ((loadSnapshot [dupRaw]).map (fun r => r.id))).Nodup ∧
    ((applyInserts [freshRaw] (loadSnapshot [dupRaw])).map (fun r => r.id)).Nodup :=
  ⟨by decide, dedup_amended [dupRaw] [freshRaw] (by decide)⟩

/-- Report with zero counters, exercising the clamp corner. -/
def zeroCountReport : ReportRow :=
  { id := 1, crime_type := "theft", lat := 0, lon := 0, severity := none,
    created_at := 0, area_name := none, upvote_no := 0, downvote_no := 0 }

theorem tweaks_cancel (c n reportId : Int) (l : List ReportRow)
    (h : ∀ r ∈ l, r.id = reportId →
      0 ≤ r.upvote_no ∧ 0 ≤ r.downvote_no ∧
      ((forwardDelta c n).1 = -1 → 1 ≤ r.upvote_no) ∧
      ((forwardDelta c n).2 = -1 → 1 ≤ r.downvote_no)) :
    applyRollbackTweaks c n reportId (applyForwardTweaks c n reportId l) = l := by
  unfold applyForwardTweaks applyRollbackTweaks
  by_cases h1 : c = 0 ∧ n = 1
  · obtain ⟨rfl, rfl⟩ := h1
    norm_num [forwardDelta] at h ⊢
    apply setReportCounts_cancel
    intro r hr hid
    have hh := h r hr hid
    constructor <;> omega
  by_cases h2 : c = 0 ∧ n = -1
  · obtain ⟨rfl, rfl⟩ := h2
    norm_num [forwardDelta] at h ⊢
    apply setReportCounts_cancel
    intro r hr hid
    have hh := h r hr hid
    constructor <;> omega
  by_cases h3 : c = 1 ∧ n = 0
  · obtain ⟨rfl, rfl⟩ := h3
    norm_num [forwardDelta] at h ⊢
    apply setReportCounts_cancel
    intro r hr hid
    have hh := h r hr hid
    constructor <;> omega
  by_cases h4 : c = -1 ∧ n = 0
  · obtain ⟨rfl, rfl⟩ := h4
    norm_num [forwardDelta] at h ⊢
    apply setReportCounts_cancel
    intro r hr hid
    have hh := h r hr hid
    constructor <;> omega
  by_cases h5 : c = 1 ∧ n = -1
  · obtain ⟨rfl, rfl⟩ := h5
    norm_num [forwardDelta] at h ⊢
    apply setReportCounts_cancel
    intro r hr hid
    have hh := h r hr hid
    constructor <;> omega
  by_cases h6 : c = -1 ∧ n = 1
  · obtain ⟨rfl, rfl⟩ := h6
    norm_num [forwardDelta] at h ⊢
    apply setReportCounts_cancel
    intro r hr hid
    have hh := h r hr hid
    constructor <;> omega
  simp [h1, h2, h3, h4, h5, h6]

/-- C2 counterexample: for the table row (current = up, next = none) the
forward delta is (-1, 0); on a report whose upvote counter is already 0
the forward step clamps at 0, and the negated rollback delta then yields
counter 1, not the original 0 — the round-trip fails at the clamp corner. -/
theorem vote_roundtrip_counterexample :
    (1, 0) ∈ deltaTablePairs ∧
    setReportCounts 1 (-(forwardDelta 1 0).1) (-(forwardDelta 1 0).2)
        (setReportCounts 1 (forwardDelta 1 0).1 (forwardDelta 1 0).2
          [zeroCountReport]) ≠
      [zeroCountReport] := by decide

/-- C2 (amended): for every (current, next) row of the delta table,
applying the forward delta then the negated rollback delta via
`setReportCounts` restores both counters of the targeted report, provided
the forward step does not clamp (the counters are non-negative and any
counter receiving a -1 forward delta is at least 1); under the same
proviso, when the persistence call fails, `castVote`'s catch path restores
the report collection exactly; and the failure path leaves `myVotes`
(committedVote) unchanged unconditionally, for every state. -/
theorem vote_rollback_roundtrip :
    (∀ (c n reportId : Int) (l : List ReportRow), (c, n) ∈ deltaTablePairs →
      (∀ r ∈ l, r.id = reportId →
        0 ≤ r.upvote_no ∧ 0 ≤ r.downvote_no ∧
        ((forwardDelta c n).1 = -1 → 1 ≤ r.upvote_no) ∧
        ((forwardDelta c n).2 = -1 → 1 ≤ r.downvote_no)) →
      setReportCounts reportId (-(forwardDelta c n).1) (-(forwardDelta c n).2)
        (setReportCounts reportId (forwardDelta c n).1 (forwardDelta c n).2 l) = l) ∧
    (∀ (s : VoteState) (reportId next : Int),
      (∀ r ∈ s.reports, r.id = reportId →
        0 ≤ r.upvote_no ∧ 0 ≤ r.downvote_no ∧
        ((forwardDelta (effVote s reportId)
            (if effVote s reportId = next then 0 else next)).1 = -1 →
          1 ≤ r.upvote_no) ∧
        ((forwardDelta (effVote s reportId)
            (if effVote s reportId = next then 0 else next)).2 = -1 →
          1 ≤ r.downvote_no)) →
      (castVote s reportId next false).reports = s.reports) ∧
    (∀ (s : VoteState) (reportId next : Int),
      (castVote s reportId next false).myVotes = s.myVotes) := by
  refine ⟨?_, ?_, ?_⟩
  · intro c n reportId l hpair h
    simp only [deltaTablePairs, List.mem_cons, List.not_mem_nil, or_false,
      Prod.mk.injEq] at hpair
    rcases hpair with ⟨rfl, rfl⟩ | ⟨rfl, rfl⟩ | ⟨rfl, rfl⟩ | ⟨rfl, rfl⟩ |
      ⟨rfl, rfl⟩ | ⟨rfl, rfl⟩ <;>
    · norm_num [forwardDelta] at h ⊢
      apply setReportCounts_cancel
      intro r hr hid
      have hh := h r hr hid
      constructor <;> omega
  · intro s reportId next h
    by_cases hg : s.userId = none ∨ s.voteBusy reportId
    · simp [castVote, castVoteStart, hg]
    · unfold castVote castVoteStart
      rw [if_neg hg]
      exact tweaks_cancel _ _ _ _ h
  · intro s reportId next
    by_cases hg : s.userId = none ∨ s.voteBusy reportId
    · simp [castVote, castVoteStart, hg]
    · unfold castVote castVoteStart castVoteFinish
      rw [if_neg hg]
      rfl

theorem applyForwardTweaks_none_up (reportId : Int) (l : List ReportRow) :
    applyForwardTweaks 0 1 reportId l = setReportCounts reportId 1 0 l := by
  norm_num [applyForwardTweaks]

theorem applyForwardTweaks_up_none (reportId : Int) (l : List ReportRow) :
    applyForwardTweaks 1 0 reportId l = setReportCounts reportId (-1) 0 l := by
  norm_num [applyForwardTweaks]

theorem castVote_reports_success (s : VoteState) (reportId next : Int)
    (hg : ¬ (s.userId = none ∨ s.voteBusy reportId)) :
    (castVote s reportId next true).reports =
      applyForwardTweaks (effVote s reportId)
        (if effVote s reportId = next then 0 else next) reportId s.reports := by
  unfold castVote castVoteStart castVoteFinish
  rw [if_neg hg]
  rfl

theorem castVote_myVotes_success (s : VoteState) (reportId next : Int)
    (hg : ¬ (s.userId = none ∨ s.voteBusy reportId)) :
    (castVote s reportId next true).myVotes = fun k =>
      if k = reportId then some (if effVote s reportId = next then 0 else next)
      else s.myVotes k := by
  unfold castVote castVoteStart castVoteFinish
  rw [if_neg hg]
  rfl

theorem castVote_optimistic_cleared (s : VoteState) (reportId next : Int)
    (success : Bool) (hg : ¬ (s.userId = none ∨ s.voteBusy reportId)) :
    (castVote s reportId next success).optimisticVotes reportId = none := by
  unfold castVote castVoteStart castVoteFinish
  rw [if_neg hg]
  cases success <;> simp

theorem castVote_busy_cleared (s : VoteState) (reportId next : Int)
    (success : Bool) (hg : ¬ (s.userId = none ∨ s.voteBusy reportId)) :
    (castVote s reportId next success).voteBusy reportId = false := by
  unfold castVote castVoteStart castVoteFinish
  rw [if_neg hg]
  cases success <;> simp

theorem castVote_userId (s : VoteState) (reportId next : Int) (success : Bool) :
    (castVote s reportId next success).userId = s.userId := by
  unfold castVote castVoteStart castVoteFinish
  by_cases hg : s.userId = none ∨ s.voteBusy reportId
  · rw [if_pos hg]
  · rw [if_neg hg]
    cases success <;> rfl

/-- C3: with a voting identity present, the report not busy, and no
committed or pending vote on it, the first `castVote(id, up)` changes the
collection by exactly one `setReportCounts(id, +1, 0)` call — which adds
one upvote to the reports carrying that id and leaves every other position
unchanged, preserving length — and a second `castVote(id, up)` issued
before the first call's persistence resolves is rejected by the busy
guard: it returns the intermediate state completely unchanged and captures
no continuation. -/
theorem busy_guard (s : VoteState) (reportId : Int) (uid : String)
    (hu : s.userId = some uid)
    (hb : s.voteBusy reportId = false)
    (ho : s.optimisticVotes reportId = none)
    (hm : (s.myVotes reportId).getD 0 = 0)
    (hc : ∀ r ∈ s.reports, r.id = reportId → 0 ≤ r.upvote_no ∧ 0 ≤ r.downvote_no) :
    castVoteStart (castVoteStart s reportId 1).1 reportId 1 =
      ((castVoteStart s reportId 1).1, none) ∧
    (castVoteStart s reportId 1).1.reports = setReportCounts reportId 1 0 s.reports ∧
    (setReportCounts reportId 1 0 s.reports).length = s.reports.length ∧
    (∀ i (h1 : i < s.reports.length)
        (h2 : i < (setReportCounts reportId 1 0 s.reports).length),
      ((s.reports.get ⟨i, h1⟩).id = reportId →
        (setReportCounts reportId 1 0 s.reports).get ⟨i, h2⟩ =
          { s.reports.get ⟨i, h1⟩ with
              upvote_no := (s.reports.get ⟨i, h1⟩).upvote_no + 1 }) ∧
      ((s.reports.get ⟨i, h1⟩).id ≠ reportId →
        (setReportCounts reportId 1 0 s.reports).get ⟨i, h2⟩ =
          s.reports.get ⟨i, h1⟩)) := by
  have hguard : ¬ (s.userId = none ∨ s.voteBusy reportId) := by
    rw [hu, hb]; simp
  have hcur : effVote s reportId = 0 := by
    simp [effVote, ho, hm]
  have hstart : castVoteStart s reportId 1 =
      ({ s with
          voteBusy := fun k => if k = reportId then true else s.voteBusy k
          optimisticVotes := fun k =>
            if k = reportId then some 1 else s.optimisticVotes k
          reports := setReportCounts reportId 1 0 s.reports }, some (0, 1)) := by
    unfold castVoteStart
    rw [if_neg hguard]
    rw [hcur]
    norm_num [applyForwardTweaks_none_up]
  refine ⟨?_, ?_, List.length_map s.reports _, ?_⟩
  · rw [hstart]
    unfold castVoteStart
    rw [if_pos (by simp)]
  · rw [hstart]
  · intro i h1 h2
    have hget : (setReportCounts reportId 1 0 s.reports).get ⟨i, h2⟩ =
        (fun r => if r.id = reportId then
          { r with upvote_no := max 0 (r.upvote_no + 1)
                   downvote_no := max 0 (r.downvote_no + 0) }
          else r) (s.reports.get ⟨i, h1⟩) := by
      simp [setReportCounts, List.get_eq_getElem]
    constructor
    · intro heq
      rw [hget]
      dsimp only
      rw [if_pos heq]
      obtain ⟨e1, e2⟩ := hc _ (s.reports.get_mem i h1) heq
      have m1 : max 0 ((s.reports.get ⟨i, h1⟩).upvote_no + 1) =
          (s.reports.get ⟨i, h1⟩).upvote_no + 1 := by omega
      have m2 : max 0 ((s.reports.get ⟨i, h1⟩).downvote_no + 0) =
          (s.reports.get ⟨i, h1⟩).downvote_no := by omega
      rw [m1, m2]
    · intro hne
      rw [hget]
      dsimp only
      rw [if_neg hne]

/-- Concrete voting state used by witnesses: one report, no cached votes,
nothing busy, an authenticated user. -/
def witnessVoteState : VoteState :=
  { reports := [sampleReport], myVotes := fun _ => none,
    optimisticVotes := fun _ => none, voteBusy := fun _ => false,
    userId := some "uid" }

theorem busy_guard_witness :
    castVoteStart (castVoteStart witnessVoteState 1 1).1 1 1 =
      ((castVoteStart witnessVoteState 1 1).1, none) :=
  (busy_guard witnessVoteState 1 "uid" rfl rfl rfl rfl (by decide)).1

/-- C5: with a voting identity present, the report not busy, and no
committed or pending vote on it, `castVote(id, up)` followed — after the
first call settles successfully — by another `castVote(id, up)` retracts
the vote: the report collection returns to the pre-vote baseline and the
committed vote for the id is the source encoding of none (`some 0`). -/
theorem retap_retraction (s : VoteState) (reportId : Int) (uid : String)
    (hu : s.userId = some uid)
    (hb : s.voteBusy reportId = false)
    (ho : s.optimisticVotes reportId = none)
    (hm : (s.myVotes reportId).getD 0 = 0)
    (hc : ∀ r ∈ s.reports, r.id = reportId → 0 ≤ r.upvote_no ∧ 0 ≤ r.downvote_no) :
    (castVote (castVote s reportId 1 true) reportId 1 true).reports = s.reports ∧
    (castVote (castVote s reportId 1 true) reportId 1 true).myVotes reportId =
      some 0 := by
  have hg1 : ¬ (s.userId = none ∨ s.voteBusy reportId) := by rw [hu, hb]; simp
  have hcur1 : effVote s reportId = 0 := by simp [effVote, ho, hm]
  set s1 := castVote s reportId 1 true with hs1
  have hrep1 : s1.reports = setReportCounts reportId 1 0 s.reports := by
    rw [hs1, castVote_reports_success s reportId 1 hg1, hcur1]
    norm_num [applyForwardTweaks_none_up]
  have hmy1 : s1.myVotes = fun k =>
      if k = reportId then some 1 else s.myVotes k := by
    rw [hs1, castVote_myVotes_success s reportId 1 hg1, hcur1]
    norm_num
  have hopt1 : s1.optimisticVotes reportId = none :=
    castVote_optimistic_cleared s reportId 1 true hg1
  have hbusy1 : s1.voteBusy reportId = false :=
    castVote_busy_cleared s reportId 1 true hg1
  have huid1 : s1.userId = some uid := by rw [hs1, castVote_userId, hu]
  have hg2 : ¬ (s1.userId = none ∨ s1.voteBusy reportId) := by
    rw [huid1, hbusy1]; simp
  have hcur2 : effVote s1 reportId = 1 := by
    simp [effVote, hopt1, hmy1]
  constructor
  · rw [castVote_reports_success s1 reportId 1 hg2, hcur2]
    norm_num [applyForwardTweaks_up_none]
    rw [hrep1]
    apply setReportCounts_cancel
    intro r hr hid
    obtain ⟨e1, e2⟩ := hc r hr hid
    constructor <;> omega
  · rw [castVote_myVotes_success s1 reportId 1 hg2, hcur2]
    norm_num

theorem retap_retraction_witness :
    (castVote (castVote witnessVoteState 1 1 true) 1 1 true).reports =
      witnessVoteState.reports ∧
    (castVote (castVote witnessVoteState 1 1 true) 1 1 true).myVotes 1 =
      some 0 :=
  retap_retraction witnessVoteState 1 "uid" rfl rfl rfl rfl (by decide)

theorem vote_rollback_roundtrip_witness :
    ((1, 0) ∈ deltaTablePairs ∧
      setReportCounts 1 (-(forwardDelta 1 0).1) (-(forwardDelta 1 0).2)
        (setReportCounts 1 (forwardDelta 1 0).1 (forwardDelta 1 0).2
          [sampleReport]) = [sampleReport]) ∧
    (castVote witnessVoteState 1 1 false).reports = witnessVoteState.reports ∧
    (castVote witnessVoteState 1 1 false).myVotes = witnessVoteState.myVotes :=
  ⟨⟨by decide,
      vote_rollback_roundtrip.1 1 0 1 [sampleReport] (by decide) (by decide)⟩,
    vote_rollback_roundtrip.2.1 witnessVoteState 1 1 (by decide),
    vote_rollback_roundtrip.2.2 witnessVoteState 1 1⟩

/-- C6: the nearby-recent view is empty when no reference coordinate is
known; with a reference coordinate, a report is in the view exactly when
its age is at most `fiveDaysMs` and its haversine distance from the
reference is at most 5 km (both bounds inclusive); in particular a report
exactly at the 5 km / 5-day boundary is included, while one at distance
5.01 km or age `fiveDaysMs + 1` is excluded. -/
theorem nearby_filter_boundary (u : Rat × Rat) (now : Int)
    (reports : List ReportRow) :
    recentNearbyCrimes none now reports = [] ∧
    (∀ r, r ∈ recentNearbyCrimes (some u) now reports ↔
      r ∈ reports ∧ now - r.created_at ≤ fiveDaysMs ∧
        getDistanceKm u.1 u.2 r.lat r.lon ≤ 5) ∧
    (∀ r ∈ reports, now - r.created_at = fiveDaysMs →
      getDistanceKm u.1 u.2 r.lat r.lon = 5 →
      r ∈ recentNearbyCrimes (some u) now reports) ∧
    (∀ r, getDistanceKm u.1 u.2 r.lat r.lon = 5.01 →
      r ∉ recentNearbyCrimes (some u) now reports) ∧
    (∀ r, now - r.created_at = fiveDaysMs + 1 →
      r ∉ recentNearbyCrimes (some u) now reports) := by
  have hmem : ∀ r, r ∈ recentNearbyCrimes (some u) now reports ↔
      r ∈ reports ∧ now - r.created_at ≤ fiveDaysMs ∧
        getDistanceKm u.1 u.2 r.lat r.lon ≤ 5 := by
    intro r
    unfold recentNearbyCrimes
    rw [List.mem_filter]
    simp [rleb, decide_eq_true_eq, Bool.and_eq_true, and_assoc]
  refine ⟨rfl, hmem, ?_, ?_, ?_⟩
  · intro r hr ht hd
    exact (hmem r).mpr ⟨hr, le_of_eq ht, le_of_eq hd⟩
  · intro r hd hr
    have hle := ((hmem r).mp hr).2.2
    rw [hd] at hle
    norm_num at hle
  · intro r ht hr
    have hle := ((hmem r).mp hr).2.1
    omega

theorem nearby_filter_boundary_witness :
    recentNearbyCrimes none 0 [sampleReport] = [] :=
  (nearby_filter_boundary (0, 0) 0 [sampleReport]).1

/-- C7: the aggregate statistics (total, last-7-days, severity ≥ 3.5) and
the nearby-recent view are computed over the unfiltered collection:
changing the active type filter of the screen state changes neither. -/
theorem stats_filter_independence (s : ScreenState) (f : String) (now : Int) :
    aggregateStats { s with selectedFilter := f } now = aggregateStats s now ∧
    nearbyView { s with selectedFilter := f } now = nearbyView s now :=
  ⟨rfl, rfl⟩

/-- C10: hydration never clobbers a pending optimistic vote: if an
optimistic overlay entry exists for an id, folding any fetched vote rows
through the `setMyVotes` updater leaves the cached committed vote for that
id unchanged, and hence the effective vote
(`optimisticVotes[id] ?? myVotes[id] ?? 0`) is unchanged by hydration. -/
theorem hydration_preserves_pending (opt prev : Int → Option Int)
    (rows : List (Int × Int)) (rid : Int) (v : Int)
    (h : opt rid = some v) :
    hydrateMyVotes opt rows prev rid = prev rid ∧
    (opt rid).getD ((hydrateMyVotes opt rows prev rid).getD 0) =
      (opt rid).getD ((prev rid).getD 0) := by
  have key : hydrateMyVotes opt rows prev rid = prev rid := by
    induction rows generalizing prev with
    | nil => rfl
    | cons row rest ih =>
        by_cases hrow : opt row.1 = none
        · have hstep : hydrateMyVotes opt (row :: rest) prev =
              hydrateMyVotes opt rest
                (fun k => if k = row.1 then
                  some (if row.2 = 1 then 1 else -1) else prev k) := by
            unfold hydrateMyVotes
            simp [hrow]
          have hne : rid ≠ row.1 := by
            intro he
            rw [← he, h] at hrow
            exact Option.noConfusion hrow
          rw [hstep, ih]
          simp [hne]
        · have hstep : hydrateMyVotes opt (row :: rest) prev =
              hydrateMyVotes opt rest prev := by
            unfold hydrateMyVotes
            simp [hrow]
          rw [hstep, ih]
  exact ⟨key, by rw [key]⟩

theorem hydration_preserves_pending_witness :
    hydrateMyVotes (fun k => if k = 1 then some (1 : Int) else none) [(1, -1)]
        (fun _ => none) 1 = (fun _ => (none : Option Int)) 1 :=
  (hydration_preserves_pending (fun k => if k = 1 then some 1 else none)
    (fun _ => none) [(1, -1)] 1 1 (by simp)).1
